import Mathlib

/-!
Shallow embedding of `src/awr/utils.py` (class `AWRClient`): the two client
operations `get_projects` (spec name: `list_projects()`) and
`get_project_details`.  JSON values are modelled by an inductive `Json`
(numbers as `Int`: every number the client inspects is an integer status
code); Python dicts are association lists in insertion order with unique
keys, and the dict operations (`in`, subscript, `.get`, item assignment)
are modelled with Python's semantics.  A network interaction is a value of
`HttpResult`: either the transport raised an exception or it produced a
status code and a body that parsed as JSON or failed to parse.  Python
exceptions raised while the client inspects a response are threaded with
`Except String`; the client's outer `try/except` converts every such error
into the uniform error envelope, which is why the top-level functions are
total.  `get_project_details` also returns the number of HTTP requests it
issued (1 or 2), so that "the details endpoint is never called" is a
statement about the model.  Exception message texts follow CPython; they
are constants no claim depends on.
-/

inductive Json where
  | null
  | bool (b : Bool)
  | num (n : Int)
  | str (s : String)
  | arr (xs : List Json)
  | obj (kvs : List (String × Json))

/-- Python type name, as it appears in CPython exception messages. -/
def pyTypeName : Json → String
  | .null => "NoneType"
  | .bool _ => "bool"
  | .num _ => "int"
  | .str _ => "str"
  | .arr _ => "list"
  | .obj _ => "dict"

/-- Python `repr()` restricted to JSON-shaped values (string escaping is
not modelled: no value the client builds a message from needs it). -/
def pyRepr : Json → String
  | .null => "None"
  | .bool true => "True"
  | .bool false => "False"
  | .num n => toString n
  | .str s => "'" ++ s ++ "'"
  | .arr xs => "[" ++ String.intercalate ", " (xs.attach.map (fun x => pyRepr x.1)) ++ "]"
  | .obj kvs =>
      "\x7b" ++
        String.intercalate ", "
          (kvs.attach.map (fun kv => "'" ++ kv.1.1 ++ "': " ++ pyRepr kv.1.2)) ++
      "\x7d"
decreasing_by
  · simp_wf
    have := List.sizeOf_lt_of_mem x.2
    omega
  · simp_wf
    obtain ⟨⟨k, v⟩, hk⟩ := kv
    have := List.sizeOf_lt_of_mem hk
    simp [Prod.mk.sizeOf_spec] at *
    omega

/-- Python `str()` on JSON-shaped values: like `repr` except on strings
(the scalar cases are spelled out so that they agree with `repr`, as in
Python, while reducing definitionally). -/
def pyStr : Json → String
  | .str s => s
  | .null => "None"
  | .bool true => "True"
  | .bool false => "False"
  | .num n => toString n
  | j => pyRepr j

/-- Python truthiness of a JSON-shaped value. -/
def pyTruthy : Json → Bool
  | .null => false
  | .bool b => b
  | .num n => n != 0
  | .str s => s != ""
  | .arr xs => !xs.isEmpty
  | .obj kvs => !kvs.isEmpty

/-- Python `v != 0` (`False == 0` and `True == 1` in Python). -/
def pyNe0 : Json → Bool
  | .num n => n != 0
  | .bool b => b
  | _ => true

/-- Python `v == m` for an integer literal `m` (booleans compare as 0/1). -/
def pyEqInt (j : Json) (m : Int) : Bool :=
  match j with
  | .num n => n == m
  | .bool b => (if b then (1 : Int) else 0) == m
  | _ => false

/-- Dict lookup on an association list (first binding wins, as in a
Python dict, whose keys are unique anyway). -/
def lookup? : List (String × Json) → String → Option Json
  | [], _ => none
  | (k, v) :: rest, key => if k = key then some v else lookup? rest key

/-- Python `d.get(key, dflt)`. -/
def getDflt (kvs : List (String × Json)) (key : String) (dflt : Json) : Json :=
  (lookup? kvs key).getD dflt

/-- Python `d[key] = v`: replace in place if the key exists (keeping its
position, as CPython dicts do), otherwise append at the end. -/
def setItem : List (String × Json) → String → Json → List (String × Json)
  | [], key, v => [(key, v)]
  | (k, w) :: rest, key, v =>
      if k = key then (k, v) :: rest else (k, w) :: setItem rest key v

/-- Key lookup through a `Json` value (none on non-objects). -/
def getKey (j : Json) (key : String) : Option Json :=
  match j with
  | .obj kvs => lookup? kvs key
  | _ => none

/-- Python `"s" in xs` for a list `xs`: string equality against each
element (a str equals no non-str JSON value). -/
def jsonStrMem (s : String) : List Json → Bool
  | [] => false
  | .str t :: rest => s = t || jsonStrMem s rest
  | _ :: rest => jsonStrMem s rest

/-- Bool test that `pat` occurs as a contiguous substring of `l`. -/
def listHas (pat : List Char) : List Char → Bool
  | [] => pat.isEmpty
  | c :: rest => pat.isPrefixOf (c :: rest) || listHas pat rest

/-- `strHas s pat` holds when `pat` occurs as a substring of `s`
(Python `pat in s` for strings). -/
def strHas (s pat : String) : Bool :=
  listHas pat.toList s.toList

/-- Python iteration over a JSON-shaped value: a list yields its
elements, a dict its keys, a string its characters; other values raise
`TypeError`. -/
def pyIter : Json → Except String (List Json)
  | .arr xs => .ok xs
  | .obj kvs => .ok (kvs.map (fun kv => .str kv.1))
  | .str s => .ok (s.toList.map (fun c => .str c.toString))
  | j => .error ("'" ++ pyTypeName j ++ "' object is not iterable")

/-- Outcome of one `requests.get` call: the transport raised, or it
returned a status code with a body that either parsed as JSON or raised
`ValueError` (carrying `str(e)`) from `response.json()`. -/
inductive BodyParse where
  | json (j : Json)
  | invalid (msg : String)

inductive HttpResult where
  | exn (msg : String)
  | success (status : Nat) (body : BodyParse)

/-- The error envelope `get_projects` builds on every error path:
`\x7b"error": msg, "projects": []\x7d`. -/
def errEnv (msg : String) : Json :=
  .obj [("error", .str msg), ("projects", .arr [])]

/-- The error envelope `get_project_details` builds: `\x7b"error": msg\x7d`. -/
def errObj (msg : String) : Json :=
  .obj [("error", .str msg)]

/-- `key.lower().startswith('project')` from `get_projects`, and the scan
for the first top-level key satisfying it (the `any(...)` guard followed
by the `for key in data.keys()` loop; the guard and the loop test the
same predicate, so together they amount to taking the first hit). -/
def lowerStartsProject (k : String) : Bool :=
  List.isPrefixOf "project".toList (k.toList.map Char.toLower)

def firstProjectKey : List (String × Json) → Option (String × Json)
  | [] => none
  | (k, v) :: rest =>
      if lowerStartsProject k then some (k, v) else firstProjectKey rest

/-- The `else` branch of `get_projects` after a 200 JSON dict with no
projects list and no nonzero `response_code`: adopt the first
"project*" key, else return the raw parsed body unchanged. -/
def scanOrRaw (kvs : List (String × Json)) : Except String Json :=
  match firstProjectKey kvs with
  | some (_, v) => .ok (.obj [("response_code", .num 0), ("projects", v)])
  | none => .ok (.obj kvs)

/-- Body handling of `get_projects` after a 200 response parsed as
`data`; `.error` is an uncaught Python exception (caught further out by
the client's `except Exception`).  Non-dict bodies reproduce CPython's
behaviour of `'projects' in data`, subscripting and `.keys()`. -/
def handle200 (data : Json) : Except String Json :=
  match data with
  | .obj kvs =>
    match lookup? kvs "projects" with
    | some (.arr _) =>
        if (lookup? kvs "response_code").isSome then .ok (.obj kvs)
        else .ok (.obj (kvs ++ [("response_code", .num 0)]))
    | _ =>
      match lookup? kvs "response_code" with
      | some rc =>
          if pyNe0 rc then
            .ok (errEnv (pyStr (getDflt kvs "message" (.str "Unknown API error")) ++
              " (Code: " ++ pyStr rc ++ ")"))
          else scanOrRaw kvs
      | none => scanOrRaw kvs
  | .arr xs =>
      if jsonStrMem "projects" xs then
        .error "list indices must be integers or slices, not str"
      else if jsonStrMem "response_code" xs then
        .error "list indices must be integers or slices, not str"
      else .error "'list' object has no attribute 'keys'"
  | .str s =>
      if strHas s "projects" then
        .error "string indices must be integers"
      else if strHas s "response_code" then
        .error "string indices must be integers"
      else .error "'str' object has no attribute 'keys'"
  | j => .error ("argument of type '" ++ pyTypeName j ++ "' is not iterable")

/-- `AWRClient.get_projects` (spec name `list_projects()`), as a function
of the one HTTP interaction it performs. -/
def get_projects (r : HttpResult) : Json :=
  match r with
  | .exn msg => errEnv ("Exception during API request: " ++ msg)
  | .success status body =>
    if status = 200 then
      match body with
      | .invalid msg => errEnv ("Could not parse JSON from API response: " ++ msg)
      | .json data =>
        match handle200 data with
        | .ok out => out
        | .error e => errEnv ("Exception during API request: " ++ e)
    else errEnv ("API returned status code " ++ toString status)

/-- The lookup loop of `get_project_details`: scan the records for the
first whose `str(project.get('id'))` equals the given string, returning
`(project.get('name'), project)`; a non-dict record raises
`AttributeError` at `.get`. -/
def findProject : List Json → String → Except String (Option (Json × List (String × Json)))
  | [], _ => .ok none
  | .obj rkvs :: rest, pidStr =>
      if pyStr (getDflt rkvs "id" .null) = pidStr then
        .ok (some (getDflt rkvs "name" .null, rkvs))
      else findProject rest pidStr
  | j :: _, _ => .error ("'" ++ pyTypeName j ++ "' object has no attribute 'get'")

/-- Python `'projects' in projects_data` followed (when true) by
`projects_data['projects']`, for an arbitrary parsed body. -/
def projectsField (pdata : Json) : Except String (Option Json) :=
  match pdata with
  | .obj kvs => .ok (lookup? kvs "projects")
  | .arr xs =>
      if jsonStrMem "projects" xs then
        .error "list indices must be integers or slices, not str"
      else .ok none
  | .str s =>
      if strHas s "projects" then
        .error "string indices must be integers"
      else .ok none
  | j => .error ("argument of type '" ++ pyTypeName j ++ "' is not iterable")

/-- The loop `for key, value in project_info.items(): if key not in
result: result[key] = value` — `result` grows as it runs. -/
def mergeInfo (result : List (String × Json)) : List (String × Json) → List (String × Json)
  | [] => result
  | (k, v) :: rest =>
      if (lookup? result k).isSome then mergeInfo result rest
      else mergeInfo (result ++ [(k, v)]) rest

/-- Success construction of `get_project_details`: `result = \x7b'id':
project_id, 'name': project_name\x7d`, then the summary fields that are
not already present, then `result['details'] = details_data`. -/
def buildResult (pid : Json) (nameVal : Json) (info : List (String × Json))
    (ddata : Json) : Json :=
  .obj (setItem
    (if info.isEmpty then [("id", pid), ("name", nameVal)]
     else mergeInfo [("id", pid), ("name", nameVal)] info)
    "details" ddata)

/-- Classification of the parsed details body `ddata` (the `if
'response_code' in details_data` block), given the resolved
`project_id`, name and summary record; `.error` is an uncaught Python
exception. -/
def detailsBody (pid : Json) (nameVal : Json) (info : List (String × Json))
    (ddata : Json) : Except String Json :=
  match ddata with
  | .obj dkvs =>
    match lookup? dkvs "response_code" with
    | some rc =>
        if pyEqInt rc 15 then .ok (errObj "The project you specified does not exist")
        else if pyEqInt rc 11 then .ok (errObj "The API token is invalid")
        else if pyNe0 rc then
          .ok (errObj (pyStr (getDflt dkvs "message" (.str "Unknown API error")) ++
            " (Code: " ++ pyStr (getDflt dkvs "response_code" .null) ++ ")"))
        else .ok (buildResult pid nameVal info ddata)
    | none => .ok (buildResult pid nameVal info ddata)
  | .arr xs =>
      if jsonStrMem "response_code" xs then
        .error "list indices must be integers or slices, not str"
      else .ok (buildResult pid nameVal info ddata)
  | .str s =>
      if strHas s "response_code" then
        .error "string indices must be integers"
      else .ok (buildResult pid nameVal info ddata)
  | j => .error ("argument of type '" ++ pyTypeName j ++ "' is not iterable")

/-- `AWRClient.get_project_details`, as a function of the requested
`project_id` and the two HTTP interactions (the second consumed only
when the details request is actually issued).  The second component is
the number of HTTP requests made; all Python exceptions land in the
outer `except Exception`, which returns `\x7b"error": str(e)\x7d`. -/
def get_project_details (project_id : Json) (listR detailsR : HttpResult) : Json × Nat :=
  match listR with
  | .exn msg => (errObj msg, 1)
  | .success status body =>
    if status = 200 then
      match body with
      | .invalid msg => (errObj msg, 1)
      | .json pdata =>
        match projectsField pdata with
        | .error e => (errObj e, 1)
        | .ok oseq =>
          let found : Except String (Option (Json × List (String × Json))) :=
            match oseq with
            | none => .ok none
            | some v =>
              match pyIter v with
              | .error e => .error e
              | .ok recs => findProject recs (pyStr project_id)
          match found with
          | .error e => (errObj e, 1)
          | .ok fnd =>
            let nameVal := match fnd with
              | some (nv, _) => nv
              | none => Json.null
            let info := match fnd with
              | some (_, rkvs) => rkvs
              | none => []
            if pyTruthy nameVal then
              match nameVal with
              | .str _ =>
                match detailsR with
                | .exn msg => (errObj msg, 2)
                | .success dstatus dbody =>
                  if dstatus = 200 then
                    match dbody with
                    | .invalid msg =>
                        (errObj ("Could not parse JSON from project details response: " ++ msg), 2)
                    | .json ddata =>
                      match detailsBody project_id nameVal info ddata with
                      | .ok out => (out, 2)
                      | .error e => (errObj e, 2)
                  else
                    (errObj ("Failed to get project details: " ++ toString dstatus), 2)
              | _ => (errObj "quote_from_bytes() expected bytes", 1)
            else
              (errObj ("Project with ID " ++ pyStr project_id ++ " not found"), 1)
    else
      (errObj ("Failed to get project list: " ++ toString status), 1)

/-- Whether a `Json` value is an object (a returned envelope). -/
def Json.isObj : Json → Bool
  | .obj _ => true
  | _ => false

/-! ### Helper lemmas about the dict and string operations -/

theorem lookup?_append (l₁ l₂ : List (String × Json)) (k : String) :
    lookup? (l₁ ++ l₂) k = (lookup? l₁ k).or (lookup? l₂ k) := by
  induction l₁ with
  | nil => simp [lookup?]
  | cons kv rest ih =>
    obtain ⟨k', v⟩ := kv
    by_cases h : k' = k <;> simp [lookup?, h, ih]


theorem setItem_lookup (l : List (String × Json)) (key : String) (v : Json) (k : String) :
    lookup? (setItem l key v) k = if k = key then some v else lookup? l k := by
  induction l with
  | nil =>
    simp only [setItem, lookup?]
    by_cases h : k = key
    · rw [if_pos h.symm, if_pos h]
    · rw [if_neg (fun hh : key = k => h hh.symm), if_neg h]
  | cons kv rest ih =>
    obtain ⟨k', w⟩ := kv
    by_cases h : k' = key
    · subst h
      by_cases h2 : k = k'
      · subst h2
        simp [setItem, lookup?]
      · simp [setItem, lookup?, h2, Ne.symm h2]
    · by_cases h2 : k = k'
      · subst h2
        simp [setItem, lookup?, h]
      · simp [setItem, lookup?, h, h2, Ne.symm h2, ih]

theorem mergeInfo_lookup_some (info res : List (String × Json)) (k : String)
    (h : (lookup? res k).isSome) :
    lookup? (mergeInfo res info) k = lookup? res k := by
  induction info generalizing res with
  | nil => simp [mergeInfo]
  | cons kv rest ih =>
    obtain ⟨k', v⟩ := kv
    simp only [mergeInfo]
    by_cases hp : (lookup? res k').isSome = true
    · rw [if_pos hp]
      exact ih res h
    · rw [if_neg hp]
      have hres : lookup? (res ++ [(k', v)]) k = lookup? res k := by
        rw [lookup?_append]
        obtain ⟨w, hw⟩ := Option.isSome_iff_exists.mp h
        rw [hw]
        rfl
      rw [ih (res ++ [(k', v)]) (by rw [hres]; exact h), hres]

theorem mergeInfo_lookup_none (info res : List (String × Json)) (k : String)
    (h : lookup? res k = none) :
    lookup? (mergeInfo res info) k = lookup? info k := by
  induction info generalizing res with
  | nil => simp [mergeInfo, lookup?, h]
  | cons kv rest ih =>
    obtain ⟨k', v⟩ := kv
    simp only [mergeInfo, lookup?]
    by_cases hp : (lookup? res k').isSome = true
    · have hk : ¬ k' = k := by
        intro he
        subst he
        rw [h] at hp
        simp at hp
      rw [if_pos hp, if_neg hk]
      exact ih res h
    · rw [if_neg hp]
      by_cases he : k' = k
      · subst he
        have hsome : lookup? (res ++ [(k', v)]) k' = some v := by
          rw [lookup?_append, h]
          simp [Option.or, lookup?]
        rw [mergeInfo_lookup_some rest _ k' (by rw [hsome]; rfl), hsome, if_pos rfl]
      · have hres : lookup? (res ++ [(k', v)]) k = none := by
          rw [lookup?_append, h]
          simp [Option.or, lookup?, he]
        rw [ih _ hres, if_neg he]

theorem listPrefixSelf (p suf : List Char) : p.isPrefixOf (p ++ suf) = true := by
  induction p with
  | nil => simp [List.isPrefixOf]
  | cons c rest ih => simp [List.isPrefixOf, ih]

theorem listHas_cons (pat : List Char) (c : Char) (l : List Char) :
    listHas pat (c :: l) = (pat.isPrefixOf (c :: l) || listHas pat l) := rfl

theorem listHas_mid (pre pat suf : List Char) :
    listHas pat (pre ++ pat ++ suf) = true := by
  induction pre with
  | nil =>
    cases pat with
    | nil => cases suf <;> simp [listHas, List.isPrefixOf]
    | cons c rest =>
      have h2 : ([] : List Char) ++ (c :: rest) ++ suf = c :: (rest ++ suf) := by simp
      rw [h2, listHas_cons]
      have h3 : (c :: rest).isPrefixOf (c :: (rest ++ suf)) = true := by
        have := listPrefixSelf (c :: rest) suf
        rw [List.cons_append] at this
        exact this
      rw [h3, Bool.true_or]
  | cons c pre' ih =>
    have h2 : (c :: pre') ++ pat ++ suf = c :: (pre' ++ pat ++ suf) := by simp
    rw [h2, listHas_cons, ih, Bool.or_true]

theorem strHas_mid (a b c : String) : strHas (a ++ b ++ c) b = true := by
  have h : (a ++ b ++ c).toList = a.toList ++ b.toList ++ c.toList := by
    show (a ++ b ++ c).data = a.data ++ b.data ++ c.data
    rw [String.data_append, String.data_append]
  rw [strHas, h]
  exact listHas_mid a.toList b.toList c.toList

theorem buildResult_lookup (pid nameVal : Json) (info : List (String × Json))
    (ddata : Json) (k : String) :
    getKey (buildResult pid nameVal info ddata) k =
      if k = "details" then some ddata
      else if k = "id" then some pid
      else if k = "name" then some nameVal
      else lookup? info k := by
  simp only [buildResult, getKey]
  rw [setItem_lookup]
  by_cases hd : k = "details"
  · rw [if_pos hd, if_pos hd]
  · rw [if_neg hd, if_neg hd]
    by_cases hi : k = "id"
    · subst hi
      rw [if_pos rfl]
      cases info with
      | nil => rfl
      | cons kv rest =>
        rw [if_neg (fun h : (kv :: rest).isEmpty = true => by simp [List.isEmpty] at h)]
        rw [mergeInfo_lookup_some (kv :: rest) [("id", pid), ("name", nameVal)] "id" (by rfl)]
        rfl
    · rw [if_neg hi]
      by_cases hn : k = "name"
      · subst hn
        rw [if_pos rfl]
        cases info with
        | nil => rfl
        | cons kv rest =>
          rw [if_neg (fun h : (kv :: rest).isEmpty = true => by simp [List.isEmpty] at h)]
          rw [mergeInfo_lookup_some (kv :: rest) [("id", pid), ("name", nameVal)] "name" (by rfl)]
          rfl
      · rw [if_neg hn]
        have hbase : lookup? [("id", pid), ("name", nameVal)] k = none := by
          simp [lookup?, Ne.symm hi, Ne.symm hn]
        cases info with
        | nil => simpa [lookup?] using hbase
        | cons kv rest =>
          rw [if_neg (fun h : (kv :: rest).isEmpty = true => by simp [List.isEmpty] at h)]
          rw [mergeInfo_lookup_none (kv :: rest) [("id", pid), ("name", nameVal)] k hbase]

theorem detailsBody_shape (pid nameVal : Json) (info : List (String × Json)) (ddata : Json) :
    (∃ m, detailsBody pid nameVal info ddata = .error m) ∨
    (∃ m, detailsBody pid nameVal info ddata = .ok (errObj m)) ∨
    detailsBody pid nameVal info ddata = .ok (buildResult pid nameVal info ddata) := by
  cases ddata with
  | obj dkvs =>
    simp only [detailsBody]
    split
    · split
      · exact Or.inr (Or.inl ⟨_, rfl⟩)
      · split
        · exact Or.inr (Or.inl ⟨_, rfl⟩)
        · split
          · exact Or.inr (Or.inl ⟨_, rfl⟩)
          · exact Or.inr (Or.inr rfl)
    · exact Or.inr (Or.inr rfl)
  | arr xs =>
    simp only [detailsBody]
    split
    · exact Or.inl ⟨_, rfl⟩
    · exact Or.inr (Or.inr rfl)
  | str s =>
    simp only [detailsBody]
    split
    · exact Or.inl ⟨_, rfl⟩
    · exact Or.inr (Or.inr rfl)
  | null => exact Or.inl ⟨_, rfl⟩
  | bool b => exact Or.inl ⟨_, rfl⟩
  | num n => exact Or.inl ⟨_, rfl⟩

theorem handle200_shape (data : Json) :
    (∃ m, handle200 data = .error m) ∨
    (∃ m, handle200 data = .ok (errEnv m)) ∨
    (∃ kvs, handle200 data = .ok (.obj kvs) ∧ (lookup? kvs "projects").isSome) ∨
    (∃ kvs, data = .obj kvs ∧ handle200 data = .ok (.obj kvs)) := by
  cases data with
  | obj kvs =>
    simp only [handle200]
    split
    next xs heq =>
      split
      next hrc =>
        exact Or.inr (Or.inr (Or.inl ⟨kvs, rfl, by rw [heq]; rfl⟩))
      next hrc =>
        refine Or.inr (Or.inr (Or.inl ⟨kvs ++ [("response_code", Json.num 0)], rfl, ?_⟩))
        rw [lookup?_append, heq]
        rfl
    next hne =>
      split
      next rc hrc =>
        split
        next hne0 =>
          exact Or.inr (Or.inl ⟨_, rfl⟩)
        next hne0 =>
          simp only [scanOrRaw]
          split
          next k v hfk =>
            exact Or.inr (Or.inr (Or.inl ⟨_, rfl, by rfl⟩))
          next hfk =>
            exact Or.inr (Or.inr (Or.inr ⟨kvs, rfl, rfl⟩))
      next hrc =>
        simp only [scanOrRaw]
        split
        next k v hfk =>
          exact Or.inr (Or.inr (Or.inl ⟨_, rfl, by rfl⟩))
        next hfk =>
          exact Or.inr (Or.inr (Or.inr ⟨kvs, rfl, rfl⟩))
  | arr xs =>
    simp only [handle200]
    split
    · exact Or.inl ⟨_, rfl⟩
    · split
      · exact Or.inl ⟨_, rfl⟩
      · exact Or.inl ⟨_, rfl⟩
  | str s =>
    simp only [handle200]
    split
    · exact Or.inl ⟨_, rfl⟩
    · split
      · exact Or.inl ⟨_, rfl⟩
      · exact Or.inl ⟨_, rfl⟩
  | null => exact Or.inl ⟨_, rfl⟩
  | bool b => exact Or.inl ⟨_, rfl⟩
  | num n => exact Or.inl ⟨_, rfl⟩

theorem get_projects_shape (r : HttpResult) :
    (∃ m, get_projects r = errEnv m) ∨
    (∃ kvs, get_projects r = .obj kvs ∧ (lookup? kvs "projects").isSome) ∨
    (∃ kvs, r = .success 200 (.json (.obj kvs)) ∧ get_projects r = .obj kvs) := by
  cases r with
  | exn msg => exact Or.inl ⟨_, rfl⟩
  | success status body =>
    by_cases hs : status = 200
    · subst hs
      cases body with
      | invalid msg => exact Or.inl ⟨_, rfl⟩
      | json data =>
        have hshape := handle200_shape data
        simp only [get_projects, if_pos rfl]
        rcases hshape with ⟨m, hm⟩ | ⟨m, hm⟩ | ⟨kvs, hk, hs2⟩ | ⟨kvs, hd, hk⟩
        · rw [hm]
          exact Or.inl ⟨_, rfl⟩
        · rw [hm]
          exact Or.inl ⟨m, rfl⟩
        · rw [hk]
          exact Or.inr (Or.inl ⟨kvs, rfl, hs2⟩)
        · subst hd
          rw [hk]
          exact Or.inr (Or.inr ⟨kvs, rfl, rfl⟩)
    · simp only [get_projects, if_neg hs]
      exact Or.inl ⟨_, rfl⟩

theorem get_project_details_shape (pid : Json) (r1 r2 : HttpResult) :
    (∃ m, (get_project_details pid r1 r2).1 = errObj m) ∨
    (∃ nm ddata kvs, (get_project_details pid r1 r2).1 = .obj kvs ∧
      lookup? kvs "id" = some pid ∧ lookup? kvs "name" = some (.str nm) ∧
      lookup? kvs "details" = some ddata) := by
  cases r1 with
  | exn msg => exact Or.inl ⟨_, rfl⟩
  | success status body =>
    by_cases hs : status = 200
    case neg =>
      simp only [get_project_details, if_neg hs]
      exact Or.inl ⟨_, rfl⟩
    subst hs
    cases body with
    | invalid msg => exact Or.inl ⟨_, rfl⟩
    | json pdata =>
      cases hpf : projectsField pdata with
      | error e =>
        simp [get_project_details, hpf]
      | ok oseq =>
        cases oseq with
        | none =>
          simp [get_project_details, hpf, pyTruthy]
        | some v =>
          cases hit : pyIter v with
          | error e =>
            simp [get_project_details, hpf, hit]
          | ok recs =>
            cases hfp : findProject recs (pyStr pid) with
            | error e =>
              simp [get_project_details, hpf, hit, hfp]
            | ok fnd =>
              cases fnd with
              | none =>
                simp [get_project_details, hpf, hit, hfp, pyTruthy]
              | some pr =>
                obtain ⟨nv, rkvs⟩ := pr
                by_cases ht : pyTruthy nv
                case neg =>
                  simp [get_project_details, hpf, hit, hfp, ht]
                cases nv with
                | str nm =>
                  cases r2 with
                  | exn m2 =>
                    simp [get_project_details, hpf, hit, hfp, ht]
                  | success dstatus dbody =>
                    by_cases hds : dstatus = 200
                    case neg =>
                      simp [get_project_details, hpf, hit, hfp, ht, hds]
                    subst hds
                    cases dbody with
                    | invalid m2 =>
                      simp [get_project_details, hpf, hit, hfp, ht]
                    | json ddata =>
                      rcases detailsBody_shape pid (.str nm) rkvs ddata with ⟨m, hm⟩ | ⟨m, hm⟩ | hm
                      · simp [get_project_details, hpf, hit, hfp, ht, hm]
                      · simp [get_project_details, hpf, hit, hfp, ht, hm]
                      · right
                        refine ⟨nm, ddata, setItem
                          (if rkvs.isEmpty then [("id", pid), ("name", Json.str nm)]
                           else mergeInfo [("id", pid), ("name", Json.str nm)] rkvs)
                          "details" ddata, ?_, ?_, ?_, ?_⟩
                        · simp [get_project_details, hpf, hit, hfp, ht, hm, buildResult]
                        · have h1 := buildResult_lookup pid (.str nm) rkvs ddata "id"
                          simp [buildResult, getKey] at h1
                          exact h1
                        · have h1 := buildResult_lookup pid (.str nm) rkvs ddata "name"
                          simp [buildResult, getKey] at h1
                          exact h1
                        · have h1 := buildResult_lookup pid (.str nm) rkvs ddata "details"
                          simp [buildResult, getKey] at h1
                          exact h1
                | null => simp [pyTruthy] at ht
                | bool b =>
                  simp [get_project_details, hpf, hit, hfp, ht]
                | num n =>
                  simp [get_project_details, hpf, hit, hfp, ht]
                | arr xs =>
                  simp [get_project_details, hpf, hit, hfp, ht]
                | obj kvs2 =>
                  simp [get_project_details, hpf, hit, hfp, ht]

/-! ### Claim theorems -/

/-- C1 counterexample: the claim that the envelope has exactly one of
data fields and error field populated, and is never empty, fails twice:
on HTTP 500 `get_projects` returns an envelope that has BOTH an `error`
field and a `projects` data field (the empty list), and on a 200
response whose body is the empty JSON object `get_projects` passes the
empty object through — an envelope with NEITHER. -/
theorem C1_counterexample :
    (getKey (get_projects (.success 500 (.json .null))) "error").isSome = true ∧
    (getKey (get_projects (.success 500 (.json .null))) "projects").isSome = true ∧
    get_projects (.success 200 (.json (.obj []))) = Json.obj [] :=
  ⟨rfl, rfl, rfl⟩

/-- C1 (amended): every call returns an envelope, but not with the
exactly-one discipline the claim states.  `get_projects` returns either
an error envelope — which carries the error message TOGETHER WITH an
empty `projects` list — or a success object containing a `projects`
field, or (fallback) the parsed 200 body itself unchanged, which may be
empty or carry arbitrary provider fields.  `get_project_details` returns
either exactly the one-field error envelope or a result object carrying
`id`, `name` and `details` fields. -/
theorem C1_envelope_shape :
    (∀ r, (∃ m, get_projects r = errEnv m) ∨
      (∃ kvs, get_projects r = Json.obj kvs ∧ (lookup? kvs "projects").isSome) ∨
      (∃ kvs, r = HttpResult.success 200 (BodyParse.json (Json.obj kvs)) ∧
        get_projects r = Json.obj kvs)) ∧
    (∀ pid r1 r2, (∃ m, (get_project_details pid r1 r2).1 = errObj m) ∨
      ((getKey (get_project_details pid r1 r2).1 "id").isSome ∧
       (getKey (get_project_details pid r1 r2).1 "name").isSome ∧
       (getKey (get_project_details pid r1 r2).1 "details").isSome)) := by
  refine ⟨get_projects_shape, fun pid r1 r2 => ?_⟩
  rcases get_project_details_shape pid r1 r2 with ⟨m, hm⟩ | ⟨nm, dd, kvs, hk, h1, h2, h3⟩
  · exact Or.inl ⟨m, hm⟩
  · right
    rw [hk]
    exact ⟨by simp [getKey, h1], by simp [getKey, h2], by simp [getKey, h3]⟩

/-- C2 counterexample: a 200 JSON object carrying BOTH a valid
`projects` array and a nonzero `response_code` is NOT turned into an
error envelope: the projects-array check runs first, so the body is
returned as a success envelope, unchanged and without any `error`
field. -/
theorem C2_counterexample :
    get_projects (.success 200 (.json (.obj [("projects", .arr []),
        ("response_code", .num 11), ("message", .str "bad")]))) =
      Json.obj [("projects", .arr []), ("response_code", .num 11),
        ("message", .str "bad")] ∧
    getKey (get_projects (.success 200 (.json (.obj [("projects", .arr []),
        ("response_code", .num 11), ("message", .str "bad")])))) "error" = none :=
  ⟨rfl, rfl⟩

/-- C2 (amended): for a 200 JSON-object body whose `response_code` is
nonzero, `get_projects` returns the error envelope built from the
provider `message` field and the numeric code — PROVIDED the body does
not also contain a `projects` key holding a list, which takes priority
and yields a success envelope instead. -/
theorem C2_provider_error_envelope (kvs : List (String × Json)) (rc : Json)
    (hnp : ∀ xs, lookup? kvs "projects" ≠ some (Json.arr xs))
    (hrc : lookup? kvs "response_code" = some rc)
    (hne : pyNe0 rc = true) :
    get_projects (.success 200 (.json (.obj kvs))) =
      errEnv (pyStr (getDflt kvs "message" (.str "Unknown API error")) ++
        " (Code: " ++ pyStr rc ++ ")") := by
  have h200 : handle200 (.obj kvs) =
      .ok (errEnv (pyStr (getDflt kvs "message" (.str "Unknown API error")) ++
        " (Code: " ++ pyStr rc ++ ")")) := by
    rcases hp : lookup? kvs "projects" with _ | v
    · simp [handle200, hp, hrc, hne]
    · cases v with
      | arr xs => exact absurd hp (hnp xs)
      | null => simp [handle200, hp, hrc, hne]
      | bool b => simp [handle200, hp, hrc, hne]
      | num n => simp [handle200, hp, hrc, hne]
      | str s => simp [handle200, hp, hrc, hne]
      | obj kvs2 => simp [handle200, hp, hrc, hne]
  simp [get_projects, h200]

/-- C2 witness: a body with `response_code` 11 and a `message` but no
projects list produces exactly the provider-error envelope. -/
theorem C2_witness :
    get_projects (.success 200 (.json (.obj [("response_code", Json.num 11),
        ("message", Json.str "bad token")]))) = errEnv "bad token (Code: 11)" := by
  have hnone : lookup? [("response_code", Json.num 11),
      ("message", Json.str "bad token")] "projects" = none := rfl
  have h := C2_provider_error_envelope
    [("response_code", Json.num 11), ("message", Json.str "bad token")] (Json.num 11)
    (fun xs hx => by rw [hnone] at hx; exact Option.noConfusion hx) rfl rfl
  exact h

/-- C4: an HTTP 500 on the list call yields the error envelope
"API returned status code 500", whose message contains "500"; and
neither operation ever lets an exception escape: for every input each
returns a JSON object envelope (all raise sites inside the client are
converted by its `except` handlers, which the totality of the model
expresses). -/
theorem C4_http500_and_never_raises :
    (∀ b, get_projects (.success 500 b) =
      errEnv "API returned status code 500") ∧
    strHas "API returned status code 500" "500" = true ∧
    (∀ r, (get_projects r).isObj = true) ∧
    (∀ pid r1 r2, ((get_project_details pid r1 r2).1).isObj = true) := by
  refine ⟨fun b => rfl, rfl, fun r => ?_, fun pid r1 r2 => ?_⟩
  · rcases get_projects_shape r with ⟨m, hm⟩ | ⟨kvs, hk, _⟩ | ⟨kvs, _, hk⟩
    · rw [hm]; rfl
    · rw [hk]; rfl
    · rw [hk]; rfl
  · rcases get_project_details_shape pid r1 r2 with ⟨m, hm⟩ | ⟨nm, dd, kvs, hk, _, _, _⟩
    · rw [hm]; rfl
    · rw [hk]; rfl

/-- C3 counterexample: a provider error code in the list body is NOT
propagated by `get_project_details`: with a list body carrying
`response_code` 11 and the provider's message, the result is the
client-side not-found envelope, whose message mentions neither the
code 11 nor the provider message — the provider error is lost. -/
theorem C3_counterexample :
    get_project_details (Json.num 42)
        (.success 200 (.json (.obj [("response_code", Json.num 11),
          ("message", Json.str "The API token is invalid")])))
        (.exn "unused") =
      (errObj "Project with ID 42 not found", 1) ∧
    strHas "Project with ID 42 not found" "11" = false ∧
    strHas "Project with ID 42 not found" "token" = false :=
  ⟨rfl, rfl, rfl⟩

/-- C3 (amended): transport failure (non-200 status), parse failure, or
a raised request exception on the list call each make
`get_project_details` return an error envelope immediately, with one
HTTP request issued and the details endpoint never called; but a
provider error code in the list body is NOT propagated as that error —
lacking a `projects` key, such a body falls through name resolution and
produces the not-found envelope instead (still with a single request
and no partial result). -/
theorem C3_list_failure_fail_fast :
    (∀ (pid : Json) (st : Nat) (b : BodyParse) (d : HttpResult), st ≠ 200 →
      get_project_details pid (.success st b) d =
        (errObj ("Failed to get project list: " ++ toString st), 1)) ∧
    (∀ (pid : Json) (m : String) (d : HttpResult),
      get_project_details pid (.success 200 (.invalid m)) d = (errObj m, 1)) ∧
    (∀ (pid : Json) (m : String) (d : HttpResult),
      get_project_details pid (.exn m) d = (errObj m, 1)) ∧
    (∀ (pid rc : Json) (kvs : List (String × Json)) (d : HttpResult),
      lookup? kvs "projects" = none →
      lookup? kvs "response_code" = some rc →
      get_project_details pid (.success 200 (.json (.obj kvs))) d =
        (errObj ("Project with ID " ++ pyStr pid ++ " not found"), 1)) := by
  refine ⟨fun pid st b d h => ?_, fun pid m d => rfl, fun pid m d => rfl,
    fun pid rc kvs d h1 _h2 => ?_⟩
  · simp [get_project_details, if_neg h]
  · simp [get_project_details, projectsField, h1, pyTruthy]

/-- C3 witness: a 500 on the list call and a provider-error list body,
at concrete inputs. -/
theorem C3_witness :
    get_project_details (Json.num 7) (.success 500 (.json .null)) (.exn "unused") =
      (errObj "Failed to get project list: 500", 1) ∧
    get_project_details (Json.num 7)
        (.success 200 (.json (.obj [("response_code", Json.num 11)]))) (.exn "unused") =
      (errObj "Project with ID 7 not found", 1) := by
  constructor
  · exact C3_list_failure_fail_fast.1 (Json.num 7) 500 (.json .null) (.exn "unused")
      (by decide)
  · exact C3_list_failure_fail_fast.2.2.2 (Json.num 7) (Json.num 11)
      [("response_code", Json.num 11)] (.exn "unused") rfl rfl

/-- C5 counterexample: the details-call error message for provider code
11 is "The API token is invalid" with a capital T, not the exact string
"the API token is invalid" the claim requires. -/
theorem C5_counterexample :
    get_project_details (Json.str "1")
        (.success 200 (.json (.obj [("projects",
          .arr [.obj [("id", Json.str "1"), ("name", Json.str "A")]])])))
        (.success 200 (.json (.obj [("response_code", Json.num 11)]))) =
      (errObj "The API token is invalid", 2) ∧
    "The API token is invalid" ≠ "the API token is invalid" :=
  ⟨rfl, by decide⟩

/-- C5 (amended): if the resolved details response is valid JSON whose
`response_code` is 11, `get_project_details` returns an error envelope
whose message is exactly "The API token is invalid" (capital T), after
two HTTP requests. -/
theorem C5_token_invalid_message (pid : Json) (kvs dkvs info : List (String × Json))
    (ps : List Json) (nm : String)
    (hp : lookup? kvs "projects" = some (.arr ps))
    (hf : findProject ps (pyStr pid) = .ok (some (.str nm, info)))
    (hnm : nm ≠ "")
    (hrc : lookup? dkvs "response_code" = some (.num 11)) :
    get_project_details pid (.success 200 (.json (.obj kvs)))
        (.success 200 (.json (.obj dkvs))) =
      (errObj "The API token is invalid", 2) := by
  have htr : pyTruthy (Json.str nm) = true := by simp [pyTruthy, hnm]
  simp [get_project_details, projectsField, hp, pyIter, hf, htr, detailsBody,
    hrc, pyEqInt]

/-- C5 witness: full concrete run reaching the code-11 branch. -/
theorem C5_witness :
    get_project_details (Json.num 3)
        (.success 200 (.json (.obj [("projects",
          .arr [.obj [("id", Json.num 3), ("name", Json.str "P")]])])))
        (.success 200 (.json (.obj [("response_code", Json.num 11),
          ("message", Json.str "x")]))) =
      (errObj "The API token is invalid", 2) :=
  C5_token_invalid_message (Json.num 3)
    [("projects", .arr [.obj [("id", Json.num 3), ("name", Json.str "P")]])]
    [("response_code", Json.num 11), ("message", Json.str "x")]
    [("id", Json.num 3), ("name", Json.str "P")]
    [.obj [("id", Json.num 3), ("name", Json.str "P")]] "P"
    rfl rfl (by decide) rfl

/-- Helper: no record in the list matches the requested id as a string,
so the lookup loop finds nothing. -/
theorem findProject_none (ps : List Json) (pidStr : String)
    (h : ∀ r ∈ ps, ∃ rkvs, r = Json.obj rkvs ∧
      pyStr (getDflt rkvs "id" .null) ≠ pidStr) :
    findProject ps pidStr = .ok none := by
  induction ps with
  | nil => rfl
  | cons r rest ih =>
    obtain ⟨rkvs, hr, hne⟩ := h r (by simp)
    subst hr
    simp only [findProject, if_neg hne]
    exact ih (fun x hx => h x (by simp [hx]))

/-- C6 counterexample: for a project list in which a record with id
"42" PRECEDES the `\x7b"id": "42", "name": "Acme"\x7d` record, both the
integer input 42 and the string input "42" resolve to the earlier
record ("Zeta"), not to the Acme record the claim designates. -/
theorem C6_counterexample :
    getKey ((get_project_details (Json.num 42)
        (.success 200 (.json (.obj [("projects", .arr [
          .obj [("id", Json.str "42"), ("name", Json.str "Zeta")],
          .obj [("id", Json.str "42"), ("name", Json.str "Acme")]])])))
        (.success 200 (.json (.obj [])))).1) "name" = some (Json.str "Zeta") ∧
    getKey ((get_project_details (Json.str "42")
        (.success 200 (.json (.obj [("projects", .arr [
          .obj [("id", Json.str "42"), ("name", Json.str "Zeta")],
          .obj [("id", Json.str "42"), ("name", Json.str "Acme")]])])))
        (.success 200 (.json (.obj [])))).1) "name" = some (Json.str "Zeta") ∧
    Json.str "Zeta" ≠ Json.str "Acme" :=
  ⟨rfl, rfl, by simp⟩

/-- C6 (amended): id matching compares `str(record id)` with
`str(requested id)`, so inputs with equal string form resolve
identically; the FIRST record in list order whose id matches is chosen
(a matching head is taken, a non-matching dict head is skipped), and
when the 42/"Acme" record heads the list both the integer input 42 and
the string input "42" resolve to it. -/
theorem C6_string_normalized_matching :
    (∀ (ps : List Json) (p1 p2 : Json), pyStr p1 = pyStr p2 →
      findProject ps (pyStr p1) = findProject ps (pyStr p2)) ∧
    (∀ (rkvs : List (String × Json)) (rest : List Json) (pidStr : String),
      pyStr (getDflt rkvs "id" .null) = pidStr →
      findProject (Json.obj rkvs :: rest) pidStr =
        .ok (some (getDflt rkvs "name" .null, rkvs))) ∧
    (∀ (rkvs : List (String × Json)) (rest : List Json) (pidStr : String),
      pyStr (getDflt rkvs "id" .null) ≠ pidStr →
      findProject (Json.obj rkvs :: rest) pidStr = findProject rest pidStr) ∧
    (∀ rest : List Json,
      getKey ((get_project_details (Json.num 42)
        (.success 200 (.json (.obj [("projects",
          .arr (Json.obj [("id", Json.str "42"), ("name", Json.str "Acme")] :: rest))])))
        (.success 200 (.json (.obj [])))).1) "name" = some (Json.str "Acme") ∧
      getKey ((get_project_details (Json.str "42")
        (.success 200 (.json (.obj [("projects",
          .arr (Json.obj [("id", Json.str "42"), ("name", Json.str "Acme")] :: rest))])))
        (.success 200 (.json (.obj [])))).1) "name" = some (Json.str "Acme")) := by
  refine ⟨fun ps p1 p2 h => by rw [h], fun rkvs rest pidStr h => ?_,
    fun rkvs rest pidStr h => ?_, fun rest => ⟨rfl, rfl⟩⟩
  · simp only [findProject, if_pos h]
  · simp only [findProject, if_neg h]

/-- C6 witness: a concrete one-record list where the integer input is
string-normalized onto the record's string id. -/
theorem C6_witness :
    findProject [Json.obj [("id", Json.str "5"), ("name", Json.str "N")]]
        (pyStr (Json.num 5)) =
      .ok (some (Json.str "N", [("id", Json.str "5"), ("name", Json.str "N")])) :=
  C6_string_normalized_matching.2.1 [("id", Json.str "5"), ("name", Json.str "N")]
    [] "5" (by decide)

/-- C7: when no record's id matches the requested id as a string,
`get_project_details` returns the not-found error envelope — whose
message contains the literal requested id — after a single HTTP
request: the details endpoint is never called. -/
theorem C7_missing_id_not_found (pid : Json) (kvs : List (String × Json))
    (ps : List Json) (d : HttpResult)
    (hp : lookup? kvs "projects" = some (.arr ps))
    (hnm : ∀ r ∈ ps, ∃ rkvs, r = Json.obj rkvs ∧
      pyStr (getDflt rkvs "id" .null) ≠ pyStr pid) :
    get_project_details pid (.success 200 (.json (.obj kvs))) d =
      (errObj ("Project with ID " ++ pyStr pid ++ " not found"), 1) ∧
    strHas ("Project with ID " ++ pyStr pid ++ " not found") (pyStr pid) = true := by
  have hf := findProject_none ps (pyStr pid) hnm
  constructor
  · simp [get_project_details, projectsField, hp, pyIter, hf, pyTruthy]
  · exact strHas_mid "Project with ID " (pyStr pid) " not found"

/-- C7 witness: requesting id 9 against a list holding only id "1". -/
theorem C7_witness :
    get_project_details (Json.num 9)
        (.success 200 (.json (.obj [("projects",
          .arr [.obj [("id", Json.str "1"), ("name", Json.str "A")]])])))
        (.exn "unused") =
      (errObj "Project with ID 9 not found", 1) ∧
    strHas "Project with ID 9 not found" "9" = true := by
  have h := C7_missing_id_not_found (Json.num 9)
    [("projects", .arr [.obj [("id", Json.str "1"), ("name", Json.str "A")]])]
    [.obj [("id", Json.str "1"), ("name", Json.str "A")]] (.exn "unused") rfl
    (fun r hr => by
      simp at hr
      subst hr
      exact ⟨[("id", Json.str "1"), ("name", Json.str "A")], rfl, by decide⟩)
  exact h

/-- C8 counterexample: with the integer input 42 against the record
`\x7b"id": "42", "name": "Acme"\x7d`, the success result's `id` field is
the integer 42 — the requested id verbatim — not the string "42" the
claim states. -/
theorem C8_counterexample :
    getKey ((get_project_details (Json.num 42)
        (.success 200 (.json (.obj [("projects", .arr [.obj [("id", Json.str "42"),
          ("name", Json.str "Acme"), ("kw", Json.num 7)]])])))
        (.success 200 (.json (.obj [("x", Json.num 1)])))).1) "id" =
      some (Json.num 42) ∧
    Json.num 42 ≠ Json.str "42" :=
  ⟨rfl, fun h => Json.noConfusion h⟩

/-- C8 (amended): a successful details fetch returns the union of the
matched record's summary fields and the raw details payload under
`details`; the `id` field is the REQUESTED project_id verbatim (so
`"42"` for string input but the integer 42 for integer input), `name`
is the resolved name, summary fields never overwrite `id`/`name`/the
final `details`, and every other summary field is present with the
record's value. -/
theorem C8_success_merge (pid : Json) (kvs dkvs info : List (String × Json))
    (ps : List Json) (nm : String)
    (hp : lookup? kvs "projects" = some (.arr ps))
    (hf : findProject ps (pyStr pid) = .ok (some (.str nm, info)))
    (hnm : nm ≠ "")
    (hrc : lookup? dkvs "response_code" = none) :
    (get_project_details pid (.success 200 (.json (.obj kvs)))
        (.success 200 (.json (.obj dkvs)))).1 =
      buildResult pid (.str nm) info (.obj dkvs) ∧
    getKey (buildResult pid (.str nm) info (.obj dkvs)) "id" = some pid ∧
    getKey (buildResult pid (.str nm) info (.obj dkvs)) "name" = some (.str nm) ∧
    getKey (buildResult pid (.str nm) info (.obj dkvs)) "details" = some (.obj dkvs) ∧
    (∀ k, k ≠ "id" → k ≠ "name" → k ≠ "details" →
      getKey (buildResult pid (.str nm) info (.obj dkvs)) k = lookup? info k) := by
  have htr : pyTruthy (Json.str nm) = true := by simp [pyTruthy, hnm]
  refine ⟨?_, ?_, ?_, ?_, fun k h1 h2 h3 => ?_⟩
  · simp [get_project_details, projectsField, hp, pyIter, hf, htr, detailsBody, hrc]
  · rw [buildResult_lookup, if_neg (by decide : ¬("id" : String) = "details"),
      if_pos rfl]
  · rw [buildResult_lookup, if_neg (by decide : ¬("name" : String) = "details"),
      if_neg (by decide : ¬("name" : String) = "id"), if_pos rfl]
  · rw [buildResult_lookup, if_pos rfl]
  · rw [buildResult_lookup, if_neg h3, if_neg h1, if_neg h2]

/-- C8 witness: the merge at the claim's own example, with string input
"42": `id="42"`, `name="Acme"`, extra summary field kept, details
nested. -/
theorem C8_witness :
    (get_project_details (Json.str "42")
        (.success 200 (.json (.obj [("projects", .arr [.obj [("id", Json.str "42"),
          ("name", Json.str "Acme"), ("kw", Json.num 7)]])])))
        (.success 200 (.json (.obj [("x", Json.num 1)])))).1 =
      Json.obj [("id", Json.str "42"), ("name", Json.str "Acme"),
        ("kw", Json.num 7), ("details", Json.obj [("x", Json.num 1)])] := by
  have h := C8_success_merge (Json.str "42")
    [("projects", .arr [.obj [("id", Json.str "42"),
      ("name", Json.str "Acme"), ("kw", Json.num 7)]])]
    [("x", Json.num 1)]
    [("id", Json.str "42"), ("name", Json.str "Acme"), ("kw", Json.num 7)]
    [.obj [("id", Json.str "42"), ("name", Json.str "Acme"), ("kw", Json.num 7)]]
    "Acme" rfl rfl (by decide) rfl
  exact h.1

/-- C9: a 200 JSON object with no `projects` key holding a list and no
nonzero `response_code` is handled by the case-insensitive scan: the
first top-level key whose lowercased name starts with "project" (if
any) provides the adopted sequence in a success envelope with
`response_code` 0; with no such key the raw parsed body is returned
unchanged. -/
theorem C9_scan_fallback (kvs : List (String × Json))
    (hnp : ∀ xs, lookup? kvs "projects" ≠ some (Json.arr xs))
    (hrc : ∀ rc, lookup? kvs "response_code" = some rc → pyNe0 rc = false) :
    (∀ k v, firstProjectKey kvs = some (k, v) →
      get_projects (.success 200 (.json (.obj kvs))) =
        Json.obj [("response_code", Json.num 0), ("projects", v)]) ∧
    (firstProjectKey kvs = none →
      get_projects (.success 200 (.json (.obj kvs))) = Json.obj kvs) := by
  have h200 : handle200 (.obj kvs) = scanOrRaw kvs := by
    rcases hp : lookup? kvs "projects" with _ | v
    · rcases hr : lookup? kvs "response_code" with _ | rc
      · simp [handle200, hp, hr]
      · simp [handle200, hp, hr, hrc rc hr]
    · cases v
      case arr xs => exact absurd hp (hnp xs)
      all_goals
        rcases hr : lookup? kvs "response_code" with _ | rc
        · simp [handle200, hp, hr]
        · simp [handle200, hp, hr, hrc rc hr]
  refine ⟨fun k v hk => ?_, fun hk => ?_⟩
  · simp [get_projects, h200, scanOrRaw, hk]
  · simp [get_projects, h200, scanOrRaw, hk]

/-- C9 witness: the scan adopts the value under "Project_list"
(case-insensitive prefix match) in one body, and passes an
unrecognizable body through unchanged in another. -/
theorem C9_witness :
    get_projects (.success 200 (.json (.obj [("status", Json.str "ok"),
        ("Project_list", Json.arr [Json.num 1])]))) =
      Json.obj [("response_code", Json.num 0),
        ("projects", Json.arr [Json.num 1])] ∧
    get_projects (.success 200 (.json (.obj [("status", Json.str "ok")]))) =
      Json.obj [("status", Json.str "ok")] := by
  constructor
  · exact (C9_scan_fallback [("status", Json.str "ok"),
      ("Project_list", Json.arr [Json.num 1])]
      (fun xs h => by
        rw [show lookup? [("status", Json.str "ok"),
          ("Project_list", Json.arr [Json.num 1])] "projects" = none from rfl] at h
        exact Option.noConfusion h)
      (fun rc h => by
        rw [show lookup? [("status", Json.str "ok"),
          ("Project_list", Json.arr [Json.num 1])] "response_code" = none from rfl] at h
        exact Option.noConfusion h)).1 "Project_list" (Json.arr [Json.num 1]) rfl
  · exact (C9_scan_fallback [("status", Json.str "ok")]
      (fun xs h => by
        rw [show lookup? [("status", Json.str "ok")] "projects" = none from rfl] at h
        exact Option.noConfusion h)
      (fun rc h => by
        rw [show lookup? [("status", Json.str "ok")] "response_code" = none from rfl] at h
        exact Option.noConfusion h)).2 rfl

/-- C10 counterexample: when the provider body already carries a
nonzero `response_code` next to a valid projects list, the success
envelope keeps that nonzero code — callers cannot rely on
`response_code = 0` in every canonical success envelope. -/
theorem C10_counterexample :
    get_projects (.success 200 (.json (.obj [("projects", Json.arr []),
        ("response_code", Json.num 7)]))) =
      Json.obj [("projects", Json.arr []), ("response_code", Json.num 7)] ∧
    getKey (get_projects (.success 200 (.json (.obj [("projects", Json.arr []),
        ("response_code", Json.num 7)])))) "response_code" = some (Json.num 7) ∧
    Json.num 7 ≠ Json.num 0 :=
  ⟨rfl, rfl, by simp⟩

/-- C10 (amended): whenever `get_projects` succeeds via the canonical
`projects` key, the envelope always CONTAINS a `response_code` field —
0 is injected when the provider omitted it — but when the provider sent
one it is kept verbatim, so presence (not the value 0) is what callers
can rely on. -/
theorem C10_response_code_present (kvs : List (String × Json)) (ps : List Json)
    (hp : lookup? kvs "projects" = some (Json.arr ps)) :
    get_projects (.success 200 (.json (.obj kvs))) =
      (if (lookup? kvs "response_code").isSome then Json.obj kvs
       else Json.obj (kvs ++ [("response_code", Json.num 0)])) ∧
    (getKey (get_projects (.success 200 (.json (.obj kvs))))
      "response_code").isSome = true := by
  rcases hr : lookup? kvs "response_code" with _ | rc
  · have hout : get_projects (.success 200 (.json (.obj kvs))) =
        Json.obj (kvs ++ [("response_code", Json.num 0)]) := by
      simp [get_projects, handle200, hp, hr]
    refine ⟨by rw [hout]; simp, ?_⟩
    rw [hout]
    simp [getKey, lookup?_append, hr, lookup?]
  · have hout : get_projects (.success 200 (.json (.obj kvs))) = Json.obj kvs := by
      simp [get_projects, handle200, hp, hr]
    refine ⟨by rw [hout]; simp, by rw [hout]; simp [getKey, hr]⟩

/-- C10 witness: injection of `response_code` 0 when absent. -/
theorem C10_witness :
    get_projects (.success 200 (.json (.obj [("projects", Json.arr [])]))) =
      Json.obj [("projects", Json.arr []), ("response_code", Json.num 0)] ∧
    (getKey (get_projects (.success 200 (.json (.obj [("projects", Json.arr [])]))))
      "response_code").isSome = true := by
  have h := C10_response_code_present [("projects", Json.arr [])] [] rfl
  exact ⟨h.1.trans (by rfl), h.2⟩
